import Mathlib

/-!
Verification of the teacher-facing quiz client: the quiz editor's question
CRUD (`CreateGameMenu.js`), the dashboard's fetching, filtering and copying
of games (`TeacherDashboard.js`), and the mobile join screen
(`JoinGameScreenMobile.js`).  Each definition below is a direct model of the
corresponding JavaScript function; state updates become explicit state
passing, Firestore reads become functions over an explicit store, and
possibly-absent document fields become `Option`.
-/

/-- A question object as held in `currentQuestion` and in the `questions`
list: `type` is the string `"multipleChoice"` or `"trueFalse"`, `answers`
the answer strings, `correctAnswers` the parallel boolean marks, and
`imageUrl` the optional uploaded image URL. -/
structure Question where
  type : String
  question : String
  answers : List String
  correctAnswers : List Bool
  imageUrl : Option String
deriving DecidableEq, Repr

/-- The editor state of `CreateGameMenu` that the question CRUD and
`saveGame` touch.  `alert` records the title/message of the last
`showAlert` confirmation modal, `none` when no alert was raised. -/
structure EditorState where
  gameTitle : String
  tags : String
  questions : List Question
  isCreateQuestionModalVisible : Bool
  editingQuestionIndex : Option Nat
  currentQuestion : Question
  isEditing : Bool
  alert : Option (String × String)
deriving DecidableEq, Repr

/-- JavaScript `s.trim()`: strip leading and trailing whitespace. -/
def jsTrim (s : String) : String :=
  String.mk (((s.data.dropWhile Char.isWhitespace).reverse.dropWhile
    Char.isWhitespace).reverse)

/-- JavaScript `s.toLowerCase()` (the source only ever lowercases ASCII
titles, tags and queries). -/
def jsToLower (s : String) : String :=
  String.mk (s.data.map Char.toLower)

/-- `currentQuestion.correctAnswers.filter(Boolean).length`. -/
def correctCount (q : Question) : Nat :=
  (q.correctAnswers.filter (fun b => b)).length

/-- The validation of `saveQuestion`: it early-returns (with an alert)
when the trimmed question text is empty or when no answer is marked
correct. -/
def acceptsQuestion (q : Question) : Bool :=
  !(jsTrim q.question == "") && !(correctCount q == 0)

/-- The initial `currentQuestion` state (also what `addQuestion` resets
the modal to). -/
def initialQuestion : Question :=
  { type := "multipleChoice"
    question := ""
    answers := ["", "", "", ""]
    correctAnswers := [false, false, false, false]
    imageUrl := none }

/-- JavaScript `Array.prototype.map` with the `(element, index)` callback,
restricted to boolean arrays, starting at index `k`. -/
def jsMapIdxFrom (f : Bool → Nat → Bool) : Nat → List Bool → List Bool
  | _, [] => []
  | k, c :: cs => f c k :: jsMapIdxFrom f (k + 1) cs

/-- JavaScript `arr.map((c, j) => ...)` on a boolean array. -/
def jsMapIdx (f : Bool → Nat → Bool) (l : List Bool) : List Bool :=
  jsMapIdxFrom f 0 l

/-- The question-type selector press: choosing `"trueFalse"` resets the
answers to the two fixed strings with both marks cleared; choosing
`"multipleChoice"` resets to four empty answers with all marks cleared. -/
def selectType (t : String) (q : Question) : Question :=
  if t = "trueFalse" then
    { q with type := t, answers := ["True", "False"], correctAnswers := [false, false] }
  else
    { q with type := t, answers := ["", "", "", ""],
             correctAnswers := [false, false, false, false] }

/-- The true/false correct-answer toggle on row `i`:
`correctAnswers.map((c, j) => (j === i ? !c : false))` — it flips entry `i`
and forces every other entry to `false`. -/
def tfTogglePress (i : Nat) (q : Question) : Question :=
  { q with correctAnswers :=
      jsMapIdx (fun c j => if j == i then !c else false) q.correctAnswers }

/-- The multiple-choice correct-answer toggle on row `i`:
`correctAnswers.map((c, j) => (j === i ? !c : c))`. -/
def mcTogglePress (i : Nat) (q : Question) : Question :=
  { q with correctAnswers :=
      jsMapIdx (fun c j => if j == i then !c else c) q.correctAnswers }

/-- Editing the question text in the modal. -/
def setQuestionText (t : String) (q : Question) : Question :=
  { q with question := t }

/-- `uploadImage` storing the public URL in the current question. -/
def setImageUrl (u : Option String) (q : Question) : Question :=
  { q with imageUrl := u }

/-- `saveQuestion`: validate, then either replace the question at
`editingQuestionIndex` or append a new question, closing the modal.
(`editingQuestionIndex` is always an index of a rendered list item, so
the `List.set` out-of-range behaviour is never exercised.) -/
def saveQuestionApp (s : EditorState) : EditorState :=
  if jsTrim s.currentQuestion.question = "" then
    { s with alert := some ("Missing Question", "Please enter a question.") }
  else if correctCount s.currentQuestion = 0 then
    { s with alert := some ("No Correct Answer", "Please select at least one correct answer.") }
  else
    match s.editingQuestionIndex with
    | some i =>
        { s with questions := s.questions.set i s.currentQuestion
                 isCreateQuestionModalVisible := false }
    | none =>
        { s with questions := s.questions ++ [s.currentQuestion]
                 isCreateQuestionModalVisible := false }

/-- The `currentQuestion` states reachable inside the question modal while
the true/false type is selected: entered by pressing the `True/False` type
button from any state, and thereafter closed under the true/false
correct-answer toggle, question-text edits and image uploads (the
multiple-choice answer rows are not rendered in this mode). -/
inductive TFReachable : Question → Prop where
  | select (q : Question) : TFReachable (selectType "trueFalse" q)
  | toggle (i : Nat) {q : Question} : TFReachable q → TFReachable (tfTogglePress i q)
  | text (t : String) {q : Question} : TFReachable q → TFReachable (setQuestionText t q)
  | image (u : Option String) {q : Question} : TFReachable q → TFReachable (setImageUrl u q)

/-- JavaScript `prev.filter((_, j) => j !== i)` on the question list,
tracking the element index from `k`. -/
def filterIdxNe (i : Nat) : Nat → List Question → List Question
  | _, [] => []
  | k, a :: t => if k ≠ i then a :: filterIdxNe i (k + 1) t else filterIdxNe i (k + 1) t

/-- `deleteQuestion(i)`: remove the question at index `i` from the list. -/
def deleteQuestionList (i : Nat) (qs : List Question) : List Question :=
  filterIdxNe i 0 qs

/-- The operations on the in-memory question list that the editor's
question CRUD section offers: `addSave q` is `addQuestion` followed by
`saveQuestion` with the modal holding `q`; `editSave i q` is
`editQuestion(i)` followed by `saveQuestion` with the modal holding `q`;
`deleteQuestion i` is `deleteQuestion(i)`. -/
inductive EditorOp where
  | addSave (q : Question)
  | editSave (i : Nat) (q : Question)
  | deleteQuestion (i : Nat)
deriving DecidableEq, Repr

/-- The effect of each editor operation on the question list, as in
`saveQuestion` / `deleteQuestion`. -/
def applyOp : EditorOp → List Question → List Question
  | .addSave q, qs => if acceptsQuestion q then qs ++ [q] else qs
  | .editSave i q, qs => if acceptsQuestion q then qs.set i q else qs
  | .deleteQuestion i, qs => deleteQuestionList i qs

/-- `parseTags`: split the CSV tags string at commas, trim each part and
drop the empty parts. -/
def parseTags (tags : String) : List String :=
  ((tags.splitOn ",").map (fun t => jsTrim t)).filter (fun t => t.length > 0)

/-- `isSaveValid`: `gameTitle.trim().length > 0 && questions.length > 0`. -/
def isSaveValid (s : EditorState) : Bool :=
  (0 < (jsTrim s.gameTitle).length) && (0 < s.questions.length)

/-- A `games` collection document as written by `saveGame` and `copyGame`
and as read by the dashboard.  Fields a document may lack are `Option`. -/
structure GameDoc where
  title : String
  tags : Option (List String)
  questions : List Question
  numQuestions : Nat
  creatorId : String
  updatedAt : String
  isPublished : Option Bool
  creatorName : Option String
deriving DecidableEq, Repr

/-- `saveGame(shouldHost)`: validate title and question list, then build
the game document and write it (create or update), alerting on the
outcome.  Returns the new editor state together with the written document
(`none` when validation failed and nothing was written).  `uid` is
`auth.currentUser.uid` and `now` the `new Date().toISOString()` stamp. -/
def saveGameApp (s : EditorState) (shouldHost : Bool) (uid now : String) :
    EditorState × Option GameDoc :=
  if jsTrim s.gameTitle = "" then
    ({ s with alert := some ("Missing Title", "Please enter a game title.") }, none)
  else if s.questions.length = 0 then
    ({ s with alert := some ("No Questions", "Please add at least one question.") }, none)
  else
    let gameData : GameDoc :=
      { title := s.gameTitle
        tags := some (parseTags s.tags)
        questions := s.questions
        numQuestions := s.questions.length
        creatorId := uid
        updatedAt := now
        isPublished := none
        creatorName := none }
    ({ s with alert := some ("Success",
        if shouldHost then "Game saved and ready to host!" else "Game saved successfully!") },
      some gameData)

/-- A game item in the dashboard's local state (`myGames` / `publicGames`):
a document spread together with its Firestore id, `{ id: d.id, ...d.data() }`. -/
structure ClientGame where
  id : String
  title : String
  tags : Option (List String)
  questions : List Question
  numQuestions : Nat
  creatorId : String
  updatedAt : String
  isPublished : Option Bool
  creatorName : Option String
deriving DecidableEq, Repr

/-- `{ id, ...d.data() }`. -/
def toClient (id : String) (d : GameDoc) : ClientGame :=
  { id := id
    title := d.title
    tags := d.tags
    questions := d.questions
    numQuestions := d.numQuestions
    creatorId := d.creatorId
    updatedAt := d.updatedAt
    isPublished := d.isPublished
    creatorName := d.creatorName }

/-- A `users` collection document; the fields the dashboard reads. -/
structure UserDoc where
  username : Option String
  displayName : Option String
  email : Option String
deriving DecidableEq, Repr

/-- JavaScript `a || d` for a possibly-absent string `a`: absent and the
empty string are falsy. -/
def jsOrString : Option String → String → String
  | none, d => d
  | some s, d => if s = "" then d else s

/-- `u.username || u.displayName || u.email || 'Unknown'`. -/
def userDisplayName (u : UserDoc) : String :=
  jsOrString u.username (jsOrString u.displayName (jsOrString u.email "Unknown"))

/-- The `usersMap` entry for a creator id: ids that are falsy are dropped
by `filter(Boolean)` before fetching, and only users whose document exists
get an entry. -/
def usersMapLookup (users : List (String × UserDoc)) (cid : String) : Option String :=
  if cid = "" then none else (users.lookup cid).map userDisplayName

/-- A `myGames` entry: `{ id: d.id, ...d.data(), isPublished:
d.data().isPublished || false }`. -/
def toMyGame (p : String × GameDoc) : ClientGame :=
  { toClient p.1 p.2 with isPublished := some (p.2.isPublished.getD false) }

/-- `fetchData` loading `myGames`: the documents of the `games` store whose
`creatorId` equals the user token, each spread with its id and with
`isPublished: d.data().isPublished || false`. -/
def fetchMyGames (userToken : String) (store : List (String × GameDoc)) :
    List ClientGame :=
  (store.filter (fun p => p.2.creatorId == userToken)).map toMyGame

/-- The Discover annotation step:
`{ ...g, creatorName: usersMap[g.creatorId] || 'Unknown' }`. -/
def annotateCreator (users : List (String × UserDoc)) (g : ClientGame) : ClientGame :=
  { g with creatorName := some (jsOrString (usersMapLookup users g.creatorId) "Unknown") }

/-- `fetchData` loading `publicGames`: the documents whose `isPublished`
field equals `true`, each spread with its id and annotated with the
creator's display name. -/
def fetchPublicGames (store : List (String × GameDoc))
    (users : List (String × UserDoc)) : List ClientGame :=
  ((store.filter (fun p => p.2.isPublished == some true)).map
      (fun p => toClient p.1 p.2)).map (annotateCreator users)

/-- JavaScript truthiness of a possibly-absent boolean field. -/
def jsTruthy (o : Option Bool) : Bool := o.getD false

/-- `s.includes(pat)` helper: does `pat` start `s`? -/
def takeStarts : List Char → List Char → Bool
  | [], _ => true
  | _ :: _, [] => false
  | p :: ps, c :: cs => p == c && takeStarts ps cs

/-- `s.includes(pat)` helper: does `pat` occur somewhere in `s`? -/
def occursIn (pat : List Char) : List Char → Bool
  | [] => takeStarts pat []
  | c :: cs => takeStarts pat (c :: cs) || occursIn pat cs

/-- JavaScript `s.includes(pat)`. -/
def strIncludes (s pat : String) : Bool := occursIn pat.data s.data

/-- `getDisplayedGames`: pick the tab's base list, filter by the search
query when it is non-empty (title or some tag contains it, lowercased),
then on the library tab with a non-`all` filter keep only the games whose
`isPublished` matches the filter. -/
def getDisplayedGames (currentTab filter searchQuery : String)
    (myGames publicGames : List ClientGame) : List ClientGame :=
  let base := if currentTab = "library" then myGames else publicGames
  let searched :=
    if searchQuery ≠ "" then
      let q := jsToLower searchQuery
      base.filter (fun g =>
        strIncludes (jsToLower g.title) q ||
          (match g.tags with
           | some ts => ts.any (fun t => strIncludes (jsToLower t) q)
           | none => false))
    else base
  if currentTab = "library" && filter ≠ "all" then
    searched.filter (fun g =>
      if filter = "published" then jsTruthy g.isPublished else !(jsTruthy g.isPublished))
  else searched

/-- `copyGame`'s new document: the source game spread with `creatorId`
replaced by the current user token, `isPublished` set to `false`, the
title suffixed with `" (Copy)"`, and the local `id` removed. -/
def copyGameDoc (userToken : String) (g : ClientGame) : GameDoc :=
  { title := g.title ++ " (Copy)"
    tags := g.tags
    questions := g.questions
    numQuestions := g.numQuestions
    creatorId := userToken
    updatedAt := g.updatedAt
    isPublished := some false
    creatorName := g.creatorName }

/-- `copyGame`'s local state update: append the new document, spread with
the id Firestore assigned it, to `myGames`. -/
def copyGameLocalUpdate (userToken newId : String) (g : ClientGame)
    (myGames : List ClientGame) : List ClientGame :=
  myGames ++ [toClient newId (copyGameDoc userToken g)]

/-- `handleInputChange`: `text.replace(/[^0-9]/g, "").slice(0, 6)`. -/
def handleInputChange (text : String) : String :=
  String.mk ((text.data.filter (fun c => c.isDigit)).take 6)

/-- `handleJoinGame` proceeds past its guard exactly when the stored game
code has length 6. -/
def handleJoinGameProceeds (gameCode : String) : Bool :=
  gameCode.length == 6

/-- A concrete true/false question built through the modal interactions. -/
def tfWitnessQuestion : Question :=
  tfTogglePress 0 (setQuestionText "Is the sky blue?" (selectType "trueFalse" initialQuestion))

/-- A concrete editor state about to save `tfWitnessQuestion` as a new
question. -/
def tfWitnessState : EditorState :=
  { gameTitle := "Sky"
    tags := ""
    questions := []
    isCreateQuestionModalVisible := true
    editingQuestionIndex := none
    currentQuestion := tfWitnessQuestion
    isEditing := false
    alert := none }

/-- A multiple-choice question with non-blank text whose correct-answer
vector is all-`false`. -/
def mcAllFalseQuestion : Question :=
  { type := "multipleChoice"
    question := "Pick every prime"
    answers := ["1", "2", "3", "4"]
    correctAnswers := [false, false, false, false]
    imageUrl := none }

/-- A concrete editor state about to save `mcAllFalseQuestion` as a new
question. -/
def mcAllFalseState : EditorState :=
  { gameTitle := "Numbers"
    tags := ""
    questions := []
    isCreateQuestionModalVisible := true
    editingQuestionIndex := none
    currentQuestion := mcAllFalseQuestion
    isEditing := false
    alert := none }

/-- A concrete multiple-choice question with one correct answer. -/
def mcWitnessQuestion : Question :=
  { type := "multipleChoice"
    question := "What is 2 + 2?"
    answers := ["3", "4", "5", "6"]
    correctAnswers := [false, true, false, false]
    imageUrl := none }

/-- A concrete editor state about to save `mcWitnessQuestion` as a new
question. -/
def mcWitnessState : EditorState :=
  { gameTitle := "Math"
    tags := ""
    questions := []
    isCreateQuestionModalVisible := true
    editingQuestionIndex := none
    currentQuestion := mcWitnessQuestion
    isEditing := false
    alert := none }

/-- A concrete saved question, distinct from `qBeta`. -/
def qAlpha : Question :=
  { type := "multipleChoice"
    question := "Alpha"
    answers := ["a", "b", "c", "d"]
    correctAnswers := [true, false, false, false]
    imageUrl := none }

/-- A concrete saved question, distinct from `qAlpha`. -/
def qBeta : Question :=
  { type := "multipleChoice"
    question := "Beta"
    answers := ["a", "b", "c", "d"]
    correctAnswers := [false, true, false, false]
    imageUrl := none }

/-- The search condition as the specification phrases it: every game
matches the empty query; otherwise the lowercased title or some
lowercased tag must contain the lowercased query.  (Spec-side restatement
used to compare `getDisplayedGames` against; the code-side condition is
the lambda inside `getDisplayedGames`.) -/
def matchesQuerySpec (q : String) (g : ClientGame) : Prop :=
  q = "" ∨ strIncludes (jsToLower g.title) (jsToLower q) = true ∨
    ∃ t ∈ g.tags.getD [], strIncludes (jsToLower t) (jsToLower q) = true

/-- The tab-filter condition as the specification phrases it: only on the
library tab with a non-`all` filter must `isPublished` match the filter
(`published` means `true`, anything else — i.e. `drafts` — means
`false`). -/
def tabFilterSpec (tab filt : String) (g : ClientGame) : Prop :=
  tab = "library" ∧ filt ≠ "all" →
    (if filt = "published" then jsTruthy g.isPublished = true
     else jsTruthy g.isPublished = false)

instance (q : String) (g : ClientGame) : Decidable (matchesQuerySpec q g) := by
  unfold matchesQuerySpec
  infer_instance

instance (tab filt : String) (g : ClientGame) : Decidable (tabFilterSpec tab filt g) := by
  unfold tabFilterSpec
  infer_instance

/-- A concrete stored game document lacking an `isPublished` field. -/
def gameDocA : GameDoc :=
  { title := "Algebra"
    tags := some ["math"]
    questions := [qAlpha]
    numQuestions := 1
    creatorId := "t1"
    updatedAt := "2026-01-01"
    isPublished := none
    creatorName := none }

/-- A concrete stored game document published by another teacher. -/
def gameDocB : GameDoc :=
  { title := "Biology"
    tags := some ["science"]
    questions := [qBeta]
    numQuestions := 1
    creatorId := "t2"
    updatedAt := "2026-01-02"
    isPublished := some true
    creatorName := none }

/-- A concrete two-document `games` store. -/
def demoStore : List (String × GameDoc) := [("g1", gameDocA), ("g2", gameDocB)]

/-- A concrete user document with a username. -/
def userAlice : UserDoc :=
  { username := some "alice", displayName := none, email := none }

/-- A concrete `users` store. -/
def demoUsers : List (String × UserDoc) := [("t2", userAlice)]

/-- A concrete unpublished library game. -/
def cgDraft : ClientGame :=
  { id := "g1"
    title := "Algebra Basics"
    tags := some ["math", "grade8"]
    questions := [qAlpha]
    numQuestions := 1
    creatorId := "t1"
    updatedAt := "2026-01-01"
    isPublished := some false
    creatorName := none }

/-- A concrete published library game. -/
def cgPub : ClientGame :=
  { id := "g2"
    title := "Space Trivia"
    tags := some ["science"]
    questions := [qBeta]
    numQuestions := 1
    creatorId := "t1"
    updatedAt := "2026-01-02"
    isPublished := some true
    creatorName := none }

/-- A concrete editor state whose title is blank after trimming. -/
def invalidSaveState : EditorState :=
  { gameTitle := "   "
    tags := "math"
    questions := [qAlpha]
    isCreateQuestionModalVisible := false
    editingQuestionIndex := none
    currentQuestion := initialQuestion
    isEditing := false
    alert := none }

/-- A concrete valid editor state about to be saved. -/
def validSaveState : EditorState :=
  { gameTitle := "Fractions Quiz"
    tags := " math,  grade8 ,"
    questions := [mcWitnessQuestion]
    isCreateQuestionModalVisible := false
    editingQuestionIndex := none
    currentQuestion := initialQuestion
    isEditing := false
    alert := none }

/- ------------------------------------------------------------------ -/
/- Theorems                                                            -/
/- ------------------------------------------------------------------ -/

theorem tfReachable_invariant {q : Question} (h : TFReachable q) :
    q.answers = ["True", "False"] ∧
      ∃ a b, q.correctAnswers = [a, b] ∧ (a && b) = false := by
  induction h with
  | select q => exact ⟨rfl, false, false, rfl, rfl⟩
  | toggle i h ih =>
      obtain ⟨hans, a, b, hcorr, hab⟩ := ih
      refine ⟨hans, ?_⟩
      simp only [tfTogglePress, hcorr, jsMapIdx, jsMapIdxFrom]
      match i with
      | 0 => exact ⟨!a, false, rfl, by simp⟩
      | 1 => exact ⟨false, !b, rfl, by simp⟩
      | (n + 2) => exact ⟨false, false, by simp, rfl⟩
  | text t h ih => exact ih
  | image u h ih => exact ih

/-- C1: every true/false question that `saveQuestion` newly accepts into
the editor's question list has exactly one of its two fixed answer
options `["True", "False"]` marked correct: the true/false toggle keeps at
most one mark set, and `saveQuestion` rejects questions with zero marks. -/
theorem trueFalse_saved_exactly_one_correct (s : EditorState) (q : Question)
    (hreach : TFReachable s.currentQuestion)
    (hmem : q ∈ (saveQuestionApp s).questions)
    (hnew : q ∉ s.questions) :
    correctCount q = 1 ∧ q.answers = ["True", "False"] ∧
      q.correctAnswers.length = 2 := by
  by_cases h1 : jsTrim s.currentQuestion.question = ""
  · rw [saveQuestionApp, if_pos h1] at hmem
    exact absurd hmem hnew
  by_cases h2 : correctCount s.currentQuestion = 0
  · rw [saveQuestionApp, if_neg h1, if_pos h2] at hmem
    exact absurd hmem hnew
  rw [saveQuestionApp, if_neg h1, if_neg h2] at hmem
  have hq : q = s.currentQuestion := by
    cases hidx : s.editingQuestionIndex with
    | none =>
        rw [hidx] at hmem
        simp only [List.mem_append, List.mem_singleton] at hmem
        exact hmem.resolve_left hnew
    | some i =>
        rw [hidx] at hmem
        exact (List.mem_or_eq_of_mem_set hmem).resolve_left hnew
  subst hq
  obtain ⟨hans, a, b, hcorr, hab⟩ := tfReachable_invariant hreach
  refine ⟨?_, hans, by rw [hcorr]; rfl⟩
  unfold correctCount at h2 ⊢
  rw [hcorr] at h2 ⊢
  cases a <;> cases b <;> simp_all

theorem trueFalse_saved_exactly_one_correct_witness :
    correctCount tfWitnessQuestion = 1 ∧
      tfWitnessQuestion.answers = ["True", "False"] ∧
      tfWitnessQuestion.correctAnswers.length = 2 :=
  trueFalse_saved_exactly_one_correct tfWitnessState tfWitnessQuestion
    (TFReachable.toggle 0 (TFReachable.text "Is the sky blue?"
      (TFReachable.select initialQuestion)))
    (by decide) (by decide)

/-- C2 (counterexample): the all-`false` correct-answer 4-vector is a
subset of the answers, yet `saveQuestion` rejects the multiple-choice
question carrying it even though its text is non-blank — the question
list stays empty. -/
theorem mc_all_false_vector_rejected :
    acceptsQuestion mcAllFalseQuestion = false ∧
      (saveQuestionApp mcAllFalseState).questions = [] ∧
      jsTrim mcAllFalseQuestion.question ≠ "" ∧
      mcAllFalseQuestion.correctAnswers = [false, false, false, false] := by
  decide

/-- C2 (amended): for every correct-answer 4-vector with at least one
`true`, `saveQuestion` accepts a multiple-choice question carrying that
vector (given non-blank question text) and appends it unchanged to the
question list. -/
theorem mc_nonempty_subset_saved (s : EditorState) (a b c d : Bool)
    (_htype : s.currentQuestion.type = "multipleChoice")
    (hvec : s.currentQuestion.correctAnswers = [a, b, c, d])
    (hone : (a || b || c || d) = true)
    (htext : jsTrim s.currentQuestion.question ≠ "")
    (hidx : s.editingQuestionIndex = none) :
    acceptsQuestion s.currentQuestion = true ∧
      (saveQuestionApp s).questions = s.questions ++ [s.currentQuestion] := by
  have hcc : correctCount s.currentQuestion ≠ 0 := by
    unfold correctCount
    rw [hvec]
    cases a <;> cases b <;> cases c <;> cases d <;> simp_all
  constructor
  · simp [acceptsQuestion, htext, hcc]
  · rw [saveQuestionApp, if_neg htext, if_neg hcc, hidx]

theorem mc_nonempty_subset_saved_witness :
    acceptsQuestion mcWitnessState.currentQuestion = true ∧
      (saveQuestionApp mcWitnessState).questions =
        mcWitnessState.questions ++ [mcWitnessState.currentQuestion] :=
  mc_nonempty_subset_saved mcWitnessState false true false false
    rfl rfl rfl (by decide) rfl

theorem filterIdxNe_gt (l : List Question) :
    ∀ {j k : Nat}, j < k → filterIdxNe j k l = l := by
  induction l with
  | nil => intro j k _; rfl
  | cons a t ih =>
      intro j k h
      rw [filterIdxNe, if_pos (ne_of_gt h), ih (Nat.lt_succ_of_lt h)]

theorem filterIdxNe_eraseIdx (l : List Question) :
    ∀ (k i : Nat), filterIdxNe (k + i) k l = l.eraseIdx i := by
  induction l with
  | nil => intro k i; rfl
  | cons a t ih =>
      intro k i
      cases i with
      | zero =>
          rw [Nat.add_zero, filterIdxNe, if_neg (by omega), List.eraseIdx_cons_zero]
          exact filterIdxNe_gt t (Nat.lt_succ_self k)
      | succ n =>
          rw [filterIdxNe, if_pos (by omega), List.eraseIdx_cons_succ]
          rw [show k + (n + 1) = (k + 1) + n by omega]
          rw [ih (k + 1) n]

theorem deleteQuestionList_eraseIdx (i : Nat) (qs : List Question) :
    deleteQuestionList i qs = qs.eraseIdx i := by
  have h := filterIdxNe_eraseIdx qs 0 i
  rw [Nat.zero_add] at h
  exact h

/-- C3 (counterexample): no single operation of the editor's question
CRUD reorders the list — none of `addSave`, `editSave` or
`deleteQuestion` maps the concrete two-question list `[qAlpha, qBeta]` to
its permutation `[qBeta, qAlpha]`. -/
theorem no_single_reorder_operation :
    ¬ ∃ op : EditorOp, applyOp op [qAlpha, qBeta] = [qBeta, qAlpha] := by
  rintro ⟨op, h⟩
  have hne : qAlpha ≠ qBeta := by decide
  cases op with
  | addSave q =>
      by_cases hq : acceptsQuestion q = true
      · simp [applyOp, hq] at h
      · rw [applyOp, if_neg (by simp [hq])] at h
        injection h with h1 _
        exact hne h1
  | editSave i q =>
      by_cases hq : acceptsQuestion q = true
      · match i with
        | 0 =>
            rw [applyOp, if_pos hq, List.set_cons_zero] at h
            injection h with h1 h2
            injection h2 with h3 _
            exact hne h3.symm
        | 1 =>
            rw [applyOp, if_pos hq, List.set_cons_succ, List.set_cons_zero] at h
            injection h with h1 _
            exact hne h1
        | (n + 2) =>
            rw [applyOp, if_pos hq, List.set_cons_succ, List.set_cons_succ,
              List.set_nil] at h
            injection h with h1 _
            exact hne h1
      · rw [applyOp, if_neg (by simp [hq])] at h
        injection h with h1 _
        exact hne h1
  | deleteQuestion i =>
      have hd : applyOp (.deleteQuestion i) [qAlpha, qBeta] =
          ([qAlpha, qBeta] : List Question).eraseIdx i :=
        deleteQuestionList_eraseIdx i _
      rw [hd] at h
      match i with
      | 0 => simp at h
      | 1 => simp at h
      | (n + 2) =>
          rw [List.eraseIdx_cons_succ, List.eraseIdx_cons_succ, List.eraseIdx_nil] at h
          injection h with h1 _
          exact hne h1

/-- C3 (amended): the editor's question CRUD provides add, edit and
delete on the in-memory list — for every question list, a valid question
can be appended, can replace the entry at any index, and the entry at any
index can be removed; there is no reorder operation. -/
theorem question_crud_add_edit_delete (qs : List Question) (q : Question)
    (i : Nat) (hq : acceptsQuestion q = true) :
    applyOp (.addSave q) qs = qs ++ [q] ∧
      applyOp (.editSave i q) qs = qs.set i q ∧
      applyOp (.deleteQuestion i) qs = qs.eraseIdx i :=
  ⟨by simp [applyOp, hq], by simp [applyOp, hq], deleteQuestionList_eraseIdx i qs⟩

theorem question_crud_add_edit_delete_witness :
    acceptsQuestion qBeta = true ∧
      (applyOp (.addSave qBeta) [qAlpha] = [qAlpha] ++ [qBeta] ∧
        applyOp (.editSave 0 qBeta) [qAlpha] = [qAlpha].set 0 qBeta ∧
        applyOp (.deleteQuestion 0) [qAlpha] = [qAlpha].eraseIdx 0) :=
  ⟨by decide, question_crud_add_edit_delete [qAlpha] qBeta 0 (by decide)⟩

/-- C4: when validation passes, `saveGame` writes a document whose title
is the entered title, whose tags are the comma-separated tags string
split, trimmed and with empty entries dropped, and whose questions are
exactly the editor's question list in order. -/
theorem saveGame_writes_title_tags_questions (s : EditorState) (host : Bool)
    (uid now : String) (ht : jsTrim s.gameTitle ≠ "") (hq : s.questions ≠ []) :
    ∃ d, (saveGameApp s host uid now).2 = some d ∧
      d.title = s.gameTitle ∧
      d.tags = some (((s.tags.splitOn ",").map (fun t => jsTrim t)).filter
        (fun t => t.length > 0)) ∧
      d.questions = s.questions := by
  have hlen : ¬s.questions.length = 0 := by
    simpa [List.length_eq_zero] using hq
  simp only [saveGameApp, if_neg ht, if_neg hlen]
  exact ⟨_, rfl, rfl, rfl, rfl⟩

theorem saveGame_writes_title_tags_questions_witness :
    ∃ d, (saveGameApp validSaveState false "uid1" "2026-02-03").2 = some d ∧
      d.title = validSaveState.gameTitle ∧
      d.tags = some (((validSaveState.tags.splitOn ",").map (fun t => jsTrim t)).filter
        (fun t => t.length > 0)) ∧
      d.questions = validSaveState.questions :=
  saveGame_writes_title_tags_questions validSaveState false "uid1" "2026-02-03"
    (by decide) (by decide)

/-- C5: `fetchData` loads into `myGames` exactly the stored game documents
whose `creatorId` equals the current user token, each carrying an
`isPublished` flag that defaults to `false` when the stored document lacks
one. -/
theorem fetchMyGames_characterization (token : String)
    (store : List (String × GameDoc)) :
    (∀ g ∈ fetchMyGames token store,
        ∃ p ∈ store, p.2.creatorId = token ∧ g = toMyGame p ∧
          g.isPublished = some (p.2.isPublished.getD false)) ∧
    (∀ p ∈ store, p.2.creatorId = token → toMyGame p ∈ fetchMyGames token store) := by
  constructor
  · intro g hg
    simp only [fetchMyGames, List.mem_map, List.mem_filter] at hg
    obtain ⟨p, ⟨hp, hc⟩, rfl⟩ := hg
    exact ⟨p, hp, by simpa using hc, rfl, rfl⟩
  · intro p hp hc
    simp only [fetchMyGames, List.mem_map, List.mem_filter]
    exact ⟨p, ⟨hp, by simpa using hc⟩, rfl⟩

theorem fetchMyGames_characterization_witness :
    toMyGame ("g1", gameDocA) ∈ fetchMyGames "t1" demoStore :=
  (fetchMyGames_characterization "t1" demoStore).2 ("g1", gameDocA)
    (by decide) (by decide)

/-- C6: `fetchData` loads into `publicGames` exactly the stored game
documents whose `isPublished` field equals `true`, regardless of creator,
each annotated with a `creatorName` drawn from the creator's user document
(username, falling back to display name, email, or `"Unknown"`). -/
theorem fetchPublicGames_characterization (store : List (String × GameDoc))
    (users : List (String × UserDoc)) :
    (∀ g ∈ fetchPublicGames store users,
        ∃ p ∈ store, p.2.isPublished = some true ∧
          g = annotateCreator users (toClient p.1 p.2) ∧
          g.creatorName = some (jsOrString (usersMapLookup users p.2.creatorId) "Unknown")) ∧
    (∀ p ∈ store, p.2.isPublished = some true →
        annotateCreator users (toClient p.1 p.2) ∈ fetchPublicGames store users) := by
  constructor
  · intro g hg
    simp only [fetchPublicGames, List.mem_map, List.mem_filter] at hg
    obtain ⟨p, ⟨⟨p2, ⟨hp, hpub⟩, rfl⟩, rfl⟩⟩ := hg
    exact ⟨p2, hp, by simpa using hpub, rfl, rfl⟩
  · intro p hp hpub
    simp only [fetchPublicGames, List.mem_map, List.mem_filter]
    exact ⟨toClient p.1 p.2, ⟨p, ⟨hp, by simpa using hpub⟩, rfl⟩, rfl⟩

theorem fetchPublicGames_characterization_witness :
    annotateCreator demoUsers (toClient "g2" gameDocB) ∈
      fetchPublicGames demoStore demoUsers :=
  (fetchPublicGames_characterization demoStore demoUsers).2 ("g2", gameDocB)
    (by decide) (by decide)

theorem tags_match_eq (g : ClientGame) (f : String → Bool) :
    (match g.tags with | some ts => ts.any f | none => false) =
      (g.tags.getD []).any f := by
  cases g.tags <;> rfl

theorem ite_filter_sublist (c : Prop) [Decidable c] (f : ClientGame → Bool)
    (l : List ClientGame) :
    List.Sublist (if c then l.filter f else l) l := by
  split
  · exact List.filter_sublist l
  · exact List.Sublist.refl l

/-- C7: a game is displayed exactly when it belongs to the current tab's
base list, matches the search query (trivially, when the query is empty),
and — on the library tab with a non-`all` filter — has the `isPublished`
value the filter selects; the displayed list is a sublist of the base
list, so base order is preserved. -/
theorem getDisplayedGames_characterization (tab filt q : String)
    (my pub : List ClientGame) :
    (∀ g, g ∈ getDisplayedGames tab filt q my pub ↔
        g ∈ (if tab = "library" then my else pub) ∧
          matchesQuerySpec q g ∧ tabFilterSpec tab filt g) ∧
    List.Sublist (getDisplayedGames tab filt q my pub)
      (if tab = "library" then my else pub) := by
  constructor
  · intro g
    unfold getDisplayedGames matchesQuerySpec tabFilterSpec
    by_cases hlib : tab = "library" <;> by_cases hall : filt = "all" <;>
      by_cases hq : q = "" <;> by_cases hpub : filt = "published" <;>
        simp [hlib, hall, hq, hpub, List.mem_filter, tags_match_eq,
          List.any_eq_true, and_comm]
  · simp only [getDisplayedGames]
    exact List.Sublist.trans (ite_filter_sublist _ _ _) (ite_filter_sublist _ _ _)

theorem getDisplayedGames_characterization_witness :
    cgDraft ∈ getDisplayedGames "library" "drafts" "alg" [cgDraft, cgPub] [] :=
  ((getDisplayedGames_characterization "library" "drafts" "alg"
      [cgDraft, cgPub] []).1 cgDraft).mpr (by decide)

/-- C8: `handleInputChange` stores at most six characters, all decimal
digits, and `handleJoinGame` proceeds exactly when the stored code has
length six. -/
theorem gameCode_digits_bounded (raw : String) :
    (handleInputChange raw).length ≤ 6 ∧
      (∀ c ∈ (handleInputChange raw).data, c.isDigit = true) ∧
      (handleJoinGameProceeds (handleInputChange raw) = true ↔
        (handleInputChange raw).length = 6) := by
  refine ⟨?_, ?_, ?_⟩
  · have h : (handleInputChange raw).length =
        ((raw.data.filter (fun c => c.isDigit)).take 6).length := rfl
    rw [h, List.length_take]
    exact Nat.min_le_left _ _
  · intro c hc
    have hc2 : c ∈ (raw.data.filter (fun c => c.isDigit)).take 6 := hc
    have hc3 : c ∈ raw.data.filter (fun c => c.isDigit) :=
      (List.take_sublist 6 _).subset hc2
    exact (List.mem_filter.mp hc3).2
  · simp [handleJoinGameProceeds]

theorem gameCode_digits_bounded_witness :
    (handleInputChange "a1b2c3d4e5f6g7").length ≤ 6 ∧ '1'.isDigit = true :=
  ⟨(gameCode_digits_bounded "a1b2c3d4e5f6g7").1,
    (gameCode_digits_bounded "a1b2c3d4e5f6g7").2.1 '1' (by decide)⟩

/-- C9: when the trimmed title is empty or the question list is empty,
`saveGame` writes nothing, leaves the editor fields unchanged, raises an
alert, and the Save & Exit button's `isSaveValid` predicate is `false` in
the same states. -/
theorem saveGame_invalid_atomic (s : EditorState) (host : Bool) (uid now : String)
    (h : jsTrim s.gameTitle = "" ∨ s.questions = []) :
    (saveGameApp s host uid now).2 = none ∧
      (saveGameApp s host uid now).1.gameTitle = s.gameTitle ∧
      (saveGameApp s host uid now).1.tags = s.tags ∧
      (saveGameApp s host uid now).1.questions = s.questions ∧
      (saveGameApp s host uid now).1.isEditing = s.isEditing ∧
      (saveGameApp s host uid now).1.alert ≠ none ∧
      isSaveValid s = false := by
  rcases h with h | h
  · simp [saveGameApp, h, isSaveValid]
  · have hlen : s.questions.length = 0 := by simp [h]
    by_cases h1 : jsTrim s.gameTitle = "" <;>
      simp [saveGameApp, h1, hlen, isSaveValid, h]

theorem saveGame_invalid_atomic_witness :
    (saveGameApp invalidSaveState false "u" "t").2 = none ∧
      (saveGameApp invalidSaveState false "u" "t").1.gameTitle =
        invalidSaveState.gameTitle ∧
      (saveGameApp invalidSaveState false "u" "t").1.tags = invalidSaveState.tags ∧
      (saveGameApp invalidSaveState false "u" "t").1.questions =
        invalidSaveState.questions ∧
      (saveGameApp invalidSaveState false "u" "t").1.isEditing =
        invalidSaveState.isEditing ∧
      (saveGameApp invalidSaveState false "u" "t").1.alert ≠ none ∧
      isSaveValid invalidSaveState = false :=
  saveGame_invalid_atomic invalidSaveState false "u" "t" (Or.inl (by decide))

/-- C10: `copyGame` produces a document equal to the source game except
that `creatorId` becomes the current user token, `isPublished` becomes
`false` and the title gains the `" (Copy)"` suffix; the copy, carrying the
newly assigned document id, is appended to the local `myGames` list. -/
theorem copyGame_private_copy (token newId : String) (g : ClientGame)
    (myGames : List ClientGame) :
    (copyGameDoc token g).creatorId = token ∧
      (copyGameDoc token g).isPublished = some false ∧
      (copyGameDoc token g).title = g.title ++ " (Copy)" ∧
      (copyGameDoc token g).tags = g.tags ∧
      (copyGameDoc token g).questions = g.questions ∧
      (copyGameDoc token g).numQuestions = g.numQuestions ∧
      (copyGameDoc token g).updatedAt = g.updatedAt ∧
      (copyGameDoc token g).creatorName = g.creatorName ∧
      (toClient newId (copyGameDoc token g)).id = newId ∧
      copyGameLocalUpdate token newId g myGames =
        myGames ++ [toClient newId (copyGameDoc token g)] :=
  ⟨rfl, rfl, rfl, rfl, rfl, rfl, rfl, rfl, rfl, rfl⟩
